import Mathlib

/-!
Verification of the staticserv upload/retrieval service (src/main.py) against
its natural-language specification.

The Python source is shallowly embedded: byte buffers are `List Nat` (each
entry one byte value), Python slices become explicit `drop`/`take`
combinations with Python's clamping semantics, the MySQL collaborators are
modelled as explicit in-memory tables, randomness (`secrets.token_urlsafe`,
used by the name generator) is modelled by passing the stream of drawn random
byte strings as an explicit argument, and `pathlib` storage is an association
list from file name to contents.
-/

namespace StaticServ

/-- Byte encoding of an ASCII string literal, as used for Python byte
literals such as `b"ftyp"`. -/
def asciiBytes (s : String) : List Nat := s.data.map Char.toNat

/-- Python slice `body[a:b]` for `0 ≤ a ≤ b`: elements at indices
`a, …, b-1`, clamped to the buffer (shorter buffers give shorter slices). -/
def pySlice (a b : Nat) (l : List Nat) : List Nat := (l.drop a).take (b - a)

/-- Python slice `body[-n:]`: the last `n` elements, or the whole buffer if
it is shorter than `n`. -/
def pyTakeLast (n : Nat) (l : List Nat) : List Nat := l.drop (l.length - n)

/-! ## Signature registry (src/main.py lines 41–112)

Each registered MIME type carries an output extension and a byte-pattern
predicate over the full body. -/

/-- `b"\x89PNG\r\n\x1a\n"` -/
def pngMagic : List Nat := [0x89, 0x50, 0x4E, 0x47, 0x0D, 0x0A, 0x1A, 0x0A]

/-- `b"\x49END\xae\x42\x60\x82"` -/
def pngTail : List Nat := [0x49, 0x45, 0x4E, 0x44, 0xAE, 0x42, 0x60, 0x82]

/-- `png_condition` (line 55): `body[:8] == PNG magic and body[-8:] == IEND tail`. -/
def png_condition (body : List Nat) : Bool :=
  pySlice 0 8 body == pngMagic && pyTakeLast 8 body == pngTail

def jfifHead : List Nat := [0xFF, 0xD8, 0xFF, 0xE0]
def jfifTag : List Nat := [0x4A, 0x46, 0x49, 0x46, 0x00]
def exifHead : List Nat := [0xFF, 0xD8, 0xFF, 0xE1]
def exifTag : List Nat := [0x45, 0x78, 0x69, 0x66, 0x00]
def spiffHead : List Nat := [0xFF, 0xD8, 0xFF, 0xE8]
def spiffTag : List Nat := [0x53, 0x50, 0x49, 0x46, 0x46, 0x00]

/-- `jpeg_condition` (line 62): three disjuncts (JFIF, Exif, SPIFF). -/
def jpeg_condition (body : List Nat) : Bool :=
  (pySlice 0 4 body == jfifHead && pySlice 6 11 body == jfifTag) ||
  (pySlice 0 4 body == exifHead && pySlice 6 11 body == exifTag) ||
  (pySlice 0 4 body == spiffHead && pySlice 6 12 body == spiffTag)

def gif87 : List Nat := asciiBytes "GIF87a"
def gif89 : List Nat := asciiBytes "GIF89a"
def gifTail : List Nat := [0x00, 0x3B]

/-- `gif_condition` (line 78): `body[:6] in (b"GIF87a", b"GIF89a") and body[-2:] == b"\x00\x3b"`. -/
def gif_condition (body : List Nat) : Bool :=
  decide (pySlice 0 6 body ∈ [gif87, gif89]) && pyTakeLast 2 body == gifTail

def bmpMagic : List Nat := [0x42, 0x4D]

/-- `bmp_condition` (line 85): `body[:2] == b"\x42\x4d"`. -/
def bmp_condition (body : List Nat) : Bool :=
  pySlice 0 2 body == bmpMagic

/-- `MP4_TYPES` (line 88): the fixed 19-entry brand-code set. -/
def MP4_TYPES : List (List Nat) :=
  [asciiBytes "avc1", asciiBytes "iso2", asciiBytes "isom", asciiBytes "mmp4",
   asciiBytes "mp41", asciiBytes "mp42", asciiBytes "mp71", asciiBytes "msnv",
   asciiBytes "ndas", asciiBytes "ndsc", asciiBytes "ndsh", asciiBytes "ndsm",
   asciiBytes "ndsp", asciiBytes "ndss", asciiBytes "ndxc", asciiBytes "ndxh",
   asciiBytes "ndxm", asciiBytes "ndxp", asciiBytes "ndxs"]

def ftypBytes : List Nat := asciiBytes "ftyp"

/-- `mp4_condition` (line 96): `body[4:8] == b"ftyp" and body[8:12] in MP4_TYPES`. -/
def mp4_condition (body : List Nat) : Bool :=
  pySlice 4 8 body == ftypBytes && decide (pySlice 8 12 body ∈ MP4_TYPES)

def webmMagic : List Nat := [0x1A, 0x45, 0xDF, 0xA3]

/-- `webm_condition` (line 103): `body[:4] == b"\x1a\x45\xdf\xa3"`. -/
def webm_condition (body : List Nat) : Bool :=
  pySlice 0 4 body == webmMagic

def psdMagic : List Nat := asciiBytes "8BPS"

/-- `psd_condition` (line 107): `body[:4] == b"8BPS"`. -/
def psd_condition (body : List Nat) : Bool :=
  pySlice 0 4 body == psdMagic

def hdrMagic : List Nat := asciiBytes "#?RADIANCE\n"

/-- `hdr_condition` (line 111): `body[:11] == b"#?RADIANCE\n"`. -/
def hdr_condition (body : List Nat) : Bool :=
  pySlice 0 11 body == hdrMagic

/-- One registry entry: output extension and signature predicate
(the value stored in `SUPPORTED_FILES` by `register_filetype`). -/
structure FileType where
  extension : String
  condition : List Nat → Bool

/-- `SUPPORTED_FILES` (line 43), in registration (= definition) order. -/
def SUPPORTED_FILES : List (String × FileType) :=
  [("image/png", ⟨"png", png_condition⟩),
   ("image/jpeg", ⟨"jpeg", jpeg_condition⟩),
   ("image/gif", ⟨"gif", gif_condition⟩),
   ("image/bmp", ⟨"bmp", bmp_condition⟩),
   ("video/mp4", ⟨"mp4", mp4_condition⟩),
   ("video/webm", ⟨"webm", webm_condition⟩),
   ("image/vnd.adobe.photoshop", ⟨"psd", psd_condition⟩),
   ("image/vnd.radiance", ⟨"hdr", hdr_condition⟩)]

/-- `SUPPORTED_FILES[mime_type]` as a fallible lookup (`mime_type not in
SUPPORTED_FILES` is the `none` case). -/
def lookupMime (mime : String) : Option FileType :=
  (SUPPORTED_FILES.find? (fun p => p.1 == mime)).map (fun p => p.2)

/-! ## Spec-side formulations of the signature tests (spec §4.1 table)

These state each table row as "the literal byte string occurs at the stated
fixed offset from the start / end of the buffer", to be compared with the
slice-based code predicates. -/

def pngSpec (b : List Nat) : Prop := pngMagic <+: b ∧ pngTail <:+ b

def jpegSpec (b : List Nat) : Prop :=
  (jfifHead <+: b ∧ jfifTag <+: b.drop 6) ∨
  (exifHead <+: b ∧ exifTag <+: b.drop 6) ∨
  (spiffHead <+: b ∧ spiffTag <+: b.drop 6)

def gifSpec (b : List Nat) : Prop :=
  (gif87 <+: b ∨ gif89 <+: b) ∧ gifTail <:+ b

def bmpSpec (b : List Nat) : Prop := bmpMagic <+: b

def mp4Spec (b : List Nat) : Prop :=
  ftypBytes <+: b.drop 4 ∧ ∃ t ∈ MP4_TYPES, t <+: b.drop 8

def webmSpec (b : List Nat) : Prop := webmMagic <+: b

def psdSpec (b : List Nat) : Prop := psdMagic <+: b

def hdrSpec (b : List Nat) : Prop := hdrMagic <+: b

/-! Bridging lemmas between Python slice equality and prefix/suffix facts. -/

theorem pySlice_eq_iff (p l : List Nat) (a b : Nat) (h : p.length = b - a) :
    pySlice a b l = p ↔ p <+: l.drop a := by
  rw [ List.prefix_iff_eq_take, h]
  simp only [pySlice]
  exact eq_comm

theorem pySlice_zero_eq_iff (p l : List Nat) (b : Nat) (h : p.length = b) :
    pySlice 0 b l = p ↔ p <+: l := by
  rw [pySlice_eq_iff p l 0 b (by simpa using h), List.drop_zero]

theorem pyTakeLast_eq_iff (p l : List Nat) (n : Nat) (h : p.length = n) :
    pyTakeLast n l = p ↔ p <:+ l := by
  rw [ List.suffix_iff_eq_drop, h]
  simp only [pyTakeLast]
  exact eq_comm

theorem png_cond_iff (b : List Nat) : png_condition b = true ↔ pngSpec b := by
  simp only [png_condition, Bool.and_eq_true, beq_iff_eq, pngSpec]
  rw [pySlice_zero_eq_iff pngMagic b 8 (by decide),
      pyTakeLast_eq_iff pngTail b 8 (by decide)]

theorem jpeg_cond_iff (b : List Nat) : jpeg_condition b = true ↔ jpegSpec b := by
  simp only [jpeg_condition, Bool.or_eq_true, Bool.and_eq_true, beq_iff_eq, jpegSpec]
  rw [pySlice_zero_eq_iff jfifHead b 4 (by decide),
      pySlice_zero_eq_iff exifHead b 4 (by decide),
      pySlice_zero_eq_iff spiffHead b 4 (by decide),
      pySlice_eq_iff jfifTag b 6 11 (by decide),
      pySlice_eq_iff exifTag b 6 11 (by decide),
      pySlice_eq_iff spiffTag b 6 12 (by decide)]
  tauto

theorem gif_cond_iff (b : List Nat) : gif_condition b = true ↔ gifSpec b := by
  simp only [gif_condition, Bool.and_eq_true, beq_iff_eq, decide_eq_true_eq,
    List.mem_cons, List.mem_singleton, List.not_mem_nil, or_false, gifSpec]
  rw [pySlice_zero_eq_iff gif87 b 6 (by decide),
      pySlice_zero_eq_iff gif89 b 6 (by decide),
      pyTakeLast_eq_iff gifTail b 2 (by decide)]

theorem bmp_cond_iff (b : List Nat) : bmp_condition b = true ↔ bmpSpec b := by
  simp only [bmp_condition, beq_iff_eq, bmpSpec]
  rw [pySlice_zero_eq_iff bmpMagic b 2 (by decide)]

theorem mp4_types_length : ∀ t ∈ MP4_TYPES, t.length = 4 := by decide

theorem mp4_cond_iff (b : List Nat) : mp4_condition b = true ↔ mp4Spec b := by
  simp only [mp4_condition, Bool.and_eq_true, beq_iff_eq, decide_eq_true_eq, mp4Spec]
  rw [pySlice_eq_iff ftypBytes b 4 8 (by decide)]
  constructor
  · rintro ⟨h1, h2⟩
    exact ⟨h1, pySlice 8 12 b, h2,
      (pySlice_eq_iff (pySlice 8 12 b) b 8 12 (mp4_types_length _ h2)).1 rfl⟩
  · rintro ⟨h1, t, ht, hpre⟩
    refine ⟨h1, ?_⟩
    rw [(pySlice_eq_iff t b 8 12 (mp4_types_length _ ht)).2 hpre]
    exact ht

theorem webm_cond_iff (b : List Nat) : webm_condition b = true ↔ webmSpec b := by
  simp only [webm_condition, beq_iff_eq, webmSpec]
  rw [pySlice_zero_eq_iff webmMagic b 4 (by decide)]

theorem psd_cond_iff (b : List Nat) : psd_condition b = true ↔ psdSpec b := by
  simp only [psd_condition, beq_iff_eq, psdSpec]
  rw [pySlice_zero_eq_iff psdMagic b 4 (by decide)]

theorem hdr_cond_iff (b : List Nat) : hdr_condition b = true ↔ hdrSpec b := by
  simp only [hdr_condition, beq_iff_eq, hdrSpec]
  rw [pySlice_zero_eq_iff hdrMagic b 11 (by decide)]

/-! ## Rate limiter (src/main.py lines 143–194)

The decorator keeps two pieces of shared mutable state (`last_reset`,
`num_calls`).  Time is modelled with `Int` (the code uses
`time.perf_counter`); one step is one call of the wrapper at time `now`. -/

structure RLState where
  last_reset : Int
  num_calls : Nat
deriving DecidableEq

/-- One call of the `ratelimit` wrapper body: resets the counter when the
period has elapsed, increments, and reports whether the wrapped function is
invoked (`num_calls ≤ max_count`) — otherwise the call short-circuits to
`default_return`. -/
def ratelimitStep (period : Int) (max_count : Nat) (st : RLState) (now : Int) :
    RLState × Bool :=
  let elapsed := now - st.last_reset
  let period_remaining := period - elapsed
  let st1 := if period_remaining ≤ 0 then RLState.mk now 0 else st
  let st2 := RLState.mk st1.last_reset (st1.num_calls + 1)
  (st2, decide (st2.num_calls ≤ max_count))

/-- One call of the wrapper, returning the value the caller sees: the wrapped
function's result when invoked, `default_return` when ratelimited. -/
def ratelimitCall {α : Type} (period : Int) (max_count : Nat) (default_return : α)
    (f : Unit → α) (st : RLState) (now : Int) : RLState × α :=
  let r := ratelimitStep period max_count st now
  (r.1, if r.2 then f () else default_return)

/-- Run a sequence of wrapper calls at the given times, from the given state,
collecting for each call whether the wrapped function was invoked. -/
def runCalls (period : Int) (max_count : Nat) (times : List Int) (st : RLState) :
    List Bool :=
  match times with
  | [] => []
  | t :: rest =>
    let r := ratelimitStep period max_count st t
    r.2 :: runCalls period max_count rest r.1

/-! ## Name generator (src/main.py lines 283–289)

`secrets.token_urlsafe(n)` is the URL-safe base64 encoding (padding stripped)
of `n` cryptographically random bytes; the randomness is modelled by passing
the drawn byte strings explicitly.  The code draws
`num_chars = secrets.randbelow(9) + 8`, i.e. 8–16 raw bytes per token. -/

/-- The URL-safe base64 alphabet used by `secrets.token_urlsafe`. -/
def b64Alphabet : List Char :=
  "ABCDEFGHIJKLMNOPQRSTUVWXYZabcdefghijklmnopqrstuvwxyz0123456789-_".data

def b64idx (n : Nat) : Char := b64Alphabet.getD (n % 64) 'A'

/-- URL-safe base64 encoding of a byte string, `=`-padding stripped
(the encoding performed by `secrets.token_urlsafe`). -/
def b64encode : List Nat → List Char
  | b1 :: b2 :: b3 :: rest =>
    b64idx (b1 / 4) :: b64idx (b1 % 4 * 16 + b2 / 16) ::
    b64idx (b2 % 16 * 4 + b3 / 64) :: b64idx (b3 % 64) :: b64encode rest
  | [b1, b2] => [b64idx (b1 / 4), b64idx (b1 % 4 * 16 + b2 / 16), b64idx (b2 % 16 * 4)]
  | [b1] => [b64idx (b1 / 4), b64idx (b1 % 4 * 16)]
  | [] => []

/-- The generation loop of `upload` (lines 285–289): build
`token_urlsafe(draw) + "." + ext` for successive random draws until a name
not occupying storage is found (`none` when the modelled stream of draws is
exhausted; the code would keep drawing). -/
def generateName (ext : String) (storage : List String) :
    List (List Nat) → Option String
  | [] => none
  | d :: rest =>
    let new_filename := String.mk (b64encode d) ++ "." ++ ext
    if new_filename ∈ storage then generateName ext storage rest
    else some new_filename

/-- Character class `[A-Za-z0-9_-]` of the spec's token pattern. -/
def isTokenChar (c : Char) : Bool := c.isAlphanum || c == '_' || c == '-'

theorem b64encode_length : ∀ l : List Nat, (b64encode l).length = (4 * l.length + 2) / 3
  | [] => by simp [b64encode]
  | [_] => by simp [b64encode]
  | [_, _] => by simp [b64encode]
  | _ :: _ :: _ :: rest => by
    simp only [b64encode, List.length_cons, b64encode_length rest]
    omega

theorem b64idx_mem (n : Nat) : b64idx n ∈ b64Alphabet := by
  have h : ∀ m, m < 64 → b64Alphabet.getD m 'A' ∈ b64Alphabet := by decide
  exact h (n % 64) (Nat.mod_lt _ (by decide))

theorem b64encode_chars : ∀ l : List Nat, ∀ c ∈ b64encode l, c ∈ b64Alphabet
  | [], c, hc => by simp [b64encode] at hc
  | [b1], c, hc => by
    simp only [b64encode, List.mem_cons, List.not_mem_nil, or_false] at hc
    rcases hc with h | h <;>
      simpa only [h] using b64idx_mem _
  | [b1, b2], c, hc => by
    simp only [b64encode, List.mem_cons, List.not_mem_nil, or_false] at hc
    rcases hc with h | h | h <;>
      simpa only [h] using b64idx_mem _
  | b1 :: b2 :: b3 :: rest, c, hc => by
    simp only [b64encode, List.mem_cons] at hc
    rcases hc with h | h | h | h | h
    · simpa only [h] using b64idx_mem _
    · simpa only [h] using b64idx_mem _
    · simpa only [h] using b64idx_mem _
    · simpa only [h] using b64idx_mem _
    · exact b64encode_chars rest c h

theorem b64Alphabet_tokenChar : ∀ c ∈ b64Alphabet, isTokenChar c = true := by decide

/-- Inversion of the generation loop: a produced name did not occupy storage
at the instant of its existence check, and has the shape
`token_urlsafe(d) + "." + ext` for one of the random draws `d`. -/
theorem generateName_eq_some {ext : String} {storage : List String} :
    ∀ {draws : List (List Nat)} {nm : String},
    generateName ext storage draws = some nm →
    nm ∉ storage ∧ ∃ d ∈ draws, nm = String.mk (b64encode d) ++ "." ++ ext
  | [], nm, h => by simp [generateName] at h
  | d :: rest, nm, h => by
    by_cases hmem : String.mk (b64encode d) ++ "." ++ ext ∈ storage
    · rw [generateName, if_pos hmem] at h
      obtain ⟨h1, d', hd', h2⟩ := generateName_eq_some h
      exact ⟨h1, d', List.mem_cons_of_mem _ hd', h2⟩
    · rw [generateName, if_neg hmem] at h
      obtain rfl : String.mk (b64encode d) ++ "." ++ ext = nm := by
        simpa using h
      exact ⟨hmem, d, List.mem_cons_self _ _, rfl⟩

/-! ## User privileges (src/main.py lines 136–140) -/

def Privileges.ACTIVE : Nat := 1
def Privileges.MANAGEMENT : Nat := 2
def Privileges.DEVELOPMENT : Nat := 4

/-! ## Auth store (src/main.py lines 262–266)

`SELECT id, name, priv FROM users WHERE token = %s AND priv & 1` over an
in-memory users table, returning the first matching row or `none`. -/

structure UserRow where
  token : String
  id : Nat
  uname : String
  priv : Nat

def fetchUser (db : List UserRow) (t : String) : Option UserRow :=
  db.find? (fun u => u.token == t && u.priv &&& 1 != 0)

/-! ## Upload request and headers (src/main.py lines 244–260)

`contentLength` is the integer value of the `Content-Length` header
(`int(conn.headers["Content-Length"])`); `none` models a missing or
unparseable header, on which the Python raises instead of responding. -/

structure Conn where
  userAgent : Option String
  token : Option String
  contentType : Option String
  contentLength : Option Int
  body : Option (List Nat)

/-- `\d+` at the front of a character stream: `none` when there is no leading
digit, otherwise the stream after the digits. -/
def chompDigits (l : List Char) : Option (List Char) :=
  if (l.takeWhile Char.isDigit).isEmpty then none
  else some (l.dropWhile Char.isDigit)

/-- End-of-input for Python's `$`, which also matches just before one
trailing newline. -/
def versionTailOk (l : List Char) : Bool := l.isEmpty || l == ['\n']

/-- `\d+\.\d+\.\d+$` against the part after `ShareX/`. -/
def matchVersionChars (l : List Char) : Bool :=
  match chompDigits l with
  | none => false
  | some r1 =>
    match r1 with
    | '.' :: r2 =>
      match chompDigits r2 with
      | none => false
      | some r3 =>
        match r3 with
        | '.' :: r4 =>
          match chompDigits r4 with
          | none => false
          | some r5 => versionTailOk r5
        | _ => false
    | _ => false

/-- `SHAREX_UAGENT_RGX.match` (line 36): `^ShareX/\d+\.\d+\.\d+$`. -/
def sharexUAMatch (s : String) : Bool :=
  match s.data with
  | 'S' :: 'h' :: 'a' :: 'r' :: 'e' :: 'X' :: '/' :: rest => matchVersionChars rest
  | _ => false

/-- Stage 1 of `upload` (lines 249–252): `User-Agent`, `Token` and
`Content-Type` all present, and the `User-Agent` matches the ShareX
pattern. -/
def headersOk (conn : Conn) : Bool :=
  conn.userAgent.isSome && conn.token.isSome && conn.contentType.isSome &&
  sharexUAMatch (conn.userAgent.getD "")

/-- Observable outcome of one upload request: HTTP status, response body
(the Python encodes this string to bytes), blob-store writes performed, and
ledger rows inserted. -/
structure UploadEffects where
  status : Nat
  body : String
  writes : List (String × List Nat)
  ledger : List (String × Nat × Int)
deriving DecidableEq

def reject400 : UploadEffects := ⟨400, "", [], []⟩

/-- Persistence and metadata stages (lines 283–303): generate a free name,
write the body under it, insert the ledger row `(name, user_id, size)` and
answer 200 with the public URL. -/
def uploadPersistStage (body : List Nat) (user : UserRow) (filesize : Int)
    (ext : String) (storage : List String) (draws : List (List Nat)) :
    Option UploadEffects :=
  match generateName ext storage draws with
  | none => none
  | some nm => some ⟨200, "https://i.cmyui.xyz/" ++ nm, [(nm, body)],
      [(nm, user.id, filesize)]⟩

/-- Type-acceptance stage (lines 271–281): the declared type must be
registered and its predicate must accept the body. -/
def uploadTypeStage (mime : String) (body : List Nat) (user : UserRow)
    (filesize : Int) (storage : List String) (draws : List (List Nat)) :
    Option UploadEffects :=
  match lookupMime mime with
  | none => some reject400
  | some ft =>
    if ft.condition body then
      uploadPersistStage body user filesize ft.extension storage draws
    else some reject400

/-- Authentication stage (lines 262–269): single auth-store read, 401 when no
active user matches the token. -/
def uploadAuthStage (conn : Conn) (body : List Nat) (filesize : Int)
    (db : List UserRow) (storage : List String) (draws : List (List Nat)) :
    Option UploadEffects :=
  match fetchUser db (conn.token.getD "") with
  | none => some ⟨401, "", [], []⟩
  | some user =>
    uploadTypeStage (conn.contentType.getD "") body user filesize storage draws

/-- The `upload` handler (lines 248–303).  `db` is the users table, `storage`
the set of names already occupying the blob store, `draws` the stream of
random byte strings consumed by the name generator. -/
def upload (conn : Conn) (db : List UserRow) (storage : List String)
    (draws : List (List Nat)) : Option UploadEffects :=
  if headersOk conn then
    match conn.body with
    | none => some reject400
    | some body =>
      match conn.contentLength with
      | none => none
      | some filesize =>
        if 64 ≤ filesize ∧ filesize < (0x400 : Int) ^ 3 then
          uploadAuthStage conn body filesize db storage draws
        else some reject400
  else some reject400

/-! ## Retrieval path (src/main.py lines 206–242) -/

structure GetConn where
  path : String
  cfConnectingIP : Option String
  xForwardedFor : Option String
  xRealIP : Option String

/-- `conn.path[1:]`, the storage key of the request. -/
def requestName (conn : GetConn) : String := String.mk (conn.path.data.drop 1)

/-- `pathlib.Path.suffix` of a file name: `"." + part after the last dot`,
empty when there is no dot, or the only dot is the first or last character. -/
def fileSuffix (name : List Char) : List Char :=
  let pre := name.reverse.takeWhile (fun c => c ≠ '.')
  if 0 < pre.length ∧ pre.length + 1 < name.length then '.' :: pre.reverse
  else []

/-- Python truthiness of `conn.headers.get(...)`: present and non-empty. -/
def headerTruthy (h : Option String) : Bool :=
  match h with
  | some s => s != ""
  | none => false

/-- `ip_forwards.split(",")[0]`. -/
def splitFirstComma (l : List Char) : List Char := l.takeWhile (fun c => c ≠ ',')

/-- Client IP resolution of `get` (lines 220–226): `CF-Connecting-IP`, else
the first entry of `X-Forwarded-For`, else `X-Real-IP`, else none. -/
def resolveIP (conn : GetConn) : Option String :=
  if headerTruthy conn.cfConnectingIP then conn.cfConnectingIP
  else if headerTruthy conn.xForwardedFor then
    some (String.mk (splitFirstComma ((conn.xForwardedFor.getD "").data)))
  else if headerTruthy conn.xRealIP then conn.xRealIP
  else none

/-- The `get` handler (lines 208–242): 404 when the name does not occupy
storage, 400 when its extension matches no registered rule, 400 when no
client IP can be resolved, otherwise the stored bytes (status 200; the
geolocation lookup and logging touch no observable response state). -/
def get (conn : GetConn) (storage : List (String × List Nat)) : Nat × List Nat :=
  match storage.find? (fun p => p.1 == requestName conn) with
  | none => (404, asciiBytes "file not found")
  | some file =>
    match SUPPORTED_FILES.find?
        (fun p => fileSuffix (requestName conn).data == ('.' :: p.2.extension.data)) with
    | none => (400, [])
    | some _ =>
      match resolveIP conn with
      | none => (400, [])
      | some _ => (200, file.2)

/-- The response to the `callIndex`-th retrieval request of a window.  The
route (line 206) binds `get` directly — the `ratelimit` decorator on it is
commented out (line 207) — so the handler carries no call-count state and
the response does not depend on the call index. -/
def retrievalRespond (callIndex : Nat) (conn : GetConn)
    (storage : List (String × List Nat)) : Nat × List Nat :=
  get conn storage

/-- Character class `[\w-]` of the route pattern. -/
def isWordDashChar (c : Char) : Bool := c.isAlphanum || c == '_' || c == '-'

/-- Split a character stream at its first `'.'`. -/
def splitFirstDot : List Char → Option (List Char × List Char)
  | [] => none
  | c :: rest =>
    if c = '.' then some ([], rest)
    else (splitFirstDot rest).map (fun p => (c :: p.1, p.2))

def routeExtensions : List String :=
  ["jpeg", "png", "gif", "bmp", "mp4", "webm", "psd", "hdr"]

/-- The route pattern of `get` (line 206):
`^/[\w-]{11,22}\.(?:jpeg|png|gif|bmp|mp4|webm|psd|hdr)$`. -/
def routeMatches (path : String) : Bool :=
  match path.data with
  | '/' :: rest =>
    match splitFirstDot rest with
    | some (stem, extn) =>
      decide (11 ≤ stem.length) && decide (stem.length ≤ 22) &&
      stem.all isWordDashChar && routeExtensions.contains (String.mk extn)
    | none => false
  | _ => false

/-! ## Claim theorems -/

/-- C5: Each of the eight registered signature predicates computes exactly the
byte test of the spec table: png checks the 8-byte PNG magic at the start and
the 8-byte IEND tail at the end; jpeg the three JFIF/Exif/SPIFF disjuncts;
gif one of the two GIF headers plus the 2-byte trailer; bmp, webm, psd, hdr
their fixed prefixes; mp4 `ftyp` at offset 4 and one of the fixed 19
brand codes at offset 8.  Every test is a literal byte string at a fixed
offset from the start (`<+:` after `drop`) or end (`<:+`) of the buffer. -/
theorem c5_signature_tests (b : List Nat) :
    (png_condition b = true ↔ pngSpec b) ∧
    (jpeg_condition b = true ↔ jpegSpec b) ∧
    (gif_condition b = true ↔ gifSpec b) ∧
    (bmp_condition b = true ↔ bmpSpec b) ∧
    (mp4_condition b = true ↔ mp4Spec b) ∧
    (webm_condition b = true ↔ webmSpec b) ∧
    (psd_condition b = true ↔ psdSpec b) ∧
    (hdr_condition b = true ↔ hdrSpec b) ∧
    MP4_TYPES.length = 19 :=
  ⟨png_cond_iff b, jpeg_cond_iff b, gif_cond_iff b, bmp_cond_iff b,
   mp4_cond_iff b, webm_cond_iff b, psd_cond_iff b, hdr_cond_iff b, rfl⟩

/-- C8: the `ratelimit` wrapper resets the counter (`count = 0`, window start
`= now`) when a full window has elapsed, then increments, short-circuits to
`default_return` without invoking the wrapped function exactly when the
incremented count exceeds `max_count`, and otherwise returns the wrapped
function's result; with `max_count = 3`, calls at times 100–103 (window 60,
counter state initial) invoke the function three times, the 4th call is
ratelimited, and a call after the window elapsed (time 161) invokes again. -/
theorem c8_ratelimit_behavior (period : Int) (max_count : Nat) (st : RLState)
    (now : Int) :
    (period ≤ now - st.last_reset →
      (ratelimitStep period max_count st now).1 = ⟨now, 1⟩) ∧
    (now - st.last_reset < period →
      (ratelimitStep period max_count st now).1 =
        ⟨st.last_reset, st.num_calls + 1⟩) ∧
    ((ratelimitStep period max_count st now).2 = true ↔
      (ratelimitStep period max_count st now).1.num_calls ≤ max_count) ∧
    (∀ (α : Type) (default_return : α) (f : Unit → α),
      (ratelimitCall period max_count default_return f st now).2 =
        if (ratelimitStep period max_count st now).2 then f () else default_return) ∧
    runCalls 60 3 [100, 101, 102, 103, 161] ⟨0, 0⟩ =
      [true, true, true, false, true] := by
  refine ⟨?_, ?_, ?_, fun α d f => rfl, by decide⟩
  · intro hr
    have hle : period - (now - st.last_reset) ≤ 0 := by omega
    simp [ratelimitStep, hle]
  · intro hr
    have hle : ¬(period - (now - st.last_reset) ≤ 0) := by omega
    simp [ratelimitStep, hle]
  · simp only [ratelimitStep]
    split <;> simp

/-- C4: for every registered rule, a name produced by the generation loop has
the form `token ++ "." ++ extension` with the token a URL-safe base64 string
of 11–22 characters drawn from `[A-Za-z0-9_-]` (the draws being 8–16 raw
random bytes, as `secrets.randbelow(9) + 8` produces), and the name did not
occupy storage at the instant of the existence check — for every storage
contents, including storage pre-populated to collide with earlier draws. -/
theorem c4_name_generator (mime : String) (ft : FileType)
    (hreg : (mime, ft) ∈ SUPPORTED_FILES)
    (storage : List String) (draws : List (List Nat)) (nm : String)
    (hlen : ∀ d ∈ draws, 8 ≤ d.length ∧ d.length ≤ 16)
    (hgen : generateName ft.extension storage draws = some nm) :
    nm ∉ storage ∧
    ∃ d ∈ draws, nm = String.mk (b64encode d) ++ "." ++ ft.extension ∧
      11 ≤ (b64encode d).length ∧ (b64encode d).length ≤ 22 ∧
      ∀ c ∈ b64encode d, isTokenChar c = true := by
  obtain ⟨hns, d, hd, rfl⟩ := generateName_eq_some hgen
  obtain ⟨hd8, hd16⟩ := hlen d hd
  refine ⟨hns, d, hd, rfl, ?_, ?_, ?_⟩
  · rw [b64encode_length]; omega
  · rw [b64encode_length]; omega
  · intro c hc
    exact b64Alphabet_tokenChar c (b64encode_chars d c hc)

/-- Witness for C4: storage pre-populated with the name of the first draw
forces the loop to its second draw; the returned name avoids storage. -/
theorem c4_name_generator_witness :
    "AAAAAAAAAAE.png" ∉ ["AAAAAAAAAAA.png"] ∧
    ∃ d ∈ [[0, 0, 0, 0, 0, 0, 0, 0], [0, 0, 0, 0, 0, 0, 0, 1]],
      "AAAAAAAAAAE.png" = String.mk (b64encode d) ++ "." ++ "png" ∧
      11 ≤ (b64encode d).length ∧ (b64encode d).length ≤ 22 ∧
      ∀ c ∈ b64encode d, isTokenChar c = true :=
  c4_name_generator "image/png" ⟨"png", png_condition⟩
    (by unfold SUPPORTED_FILES; exact List.mem_cons_self _ _)
    ["AAAAAAAAAAA.png"] [[0, 0, 0, 0, 0, 0, 0, 0], [0, 0, 0, 0, 0, 0, 0, 1]]
    "AAAAAAAAAAE.png" (by decide) rfl

/-- After header validation, with a body and a parseable `Content-Length`,
`upload` reduces to the size-check conditional. -/
theorem upload_splits (conn : Conn) (db : List UserRow) (storage : List String)
    (draws : List (List Nat)) (body : List Nat) (cl : Int)
    (h1 : headersOk conn = true) (h2 : conn.body = some body)
    (h3 : conn.contentLength = some cl) :
    upload conn db storage draws =
      (if 64 ≤ cl ∧ cl < (0x400 : Int) ^ 3 then
        uploadAuthStage conn body cl db storage draws
      else some ⟨400, "", [], []⟩) := by
  simp [upload, h1, h2, h3, reject400]

/-- C7: after header validation (and with a body and a parseable
`Content-Length`), the pipeline proceeds past the size check to the
authentication stage exactly when `64 ≤ Content-Length < 2^30`, and otherwise
answers 400 with no blob write and no ledger insert — for every users table,
so the rejection happens before authentication. -/
theorem c7_size_bound (conn : Conn) (db : List UserRow) (storage : List String)
    (draws : List (List Nat)) (body : List Nat) (cl : Int)
    (h1 : headersOk conn = true) (h2 : conn.body = some body)
    (h3 : conn.contentLength = some cl) :
    upload conn db storage draws =
      (if 64 ≤ cl ∧ cl < (0x400 : Int) ^ 3 then
        uploadAuthStage conn body cl db storage draws
      else some ⟨400, "", [], []⟩) :=
  upload_splits conn db storage draws body cl h1 h2 h3

/-- Witness for C7: a declared `Content-Length` of 10 bytes is rejected 400
(here with a users table on which authentication would fail, showing the
size check fires first). -/
theorem c7_size_bound_witness :
    upload ⟨some "ShareX/13.1.0", some "t", some "image/png", some 10, some [1]⟩
      [] [] [] = some ⟨400, "", [], []⟩ := by
  rw [c7_size_bound ⟨some "ShareX/13.1.0", some "t", some "image/png", some 10,
      some [1]⟩ [] [] [] [1] 10 (by decide) rfl rfl]
  decide

/-- C6: an upload that passes header validation and the size bound, whose
token matches no user with the `ACTIVE` privilege bit set, is rejected 401
with no blob write and no ledger insert. -/
theorem c6_unauthorized (conn : Conn) (db : List UserRow) (storage : List String)
    (draws : List (List Nat)) (body : List Nat) (cl : Int)
    (h1 : headersOk conn = true) (h2 : conn.body = some body)
    (h3 : conn.contentLength = some cl)
    (h4 : 64 ≤ cl ∧ cl < (0x400 : Int) ^ 3)
    (h5 : ∀ u ∈ db, u.token = conn.token.getD "" →
      u.priv &&& Privileges.ACTIVE = 0) :
    upload conn db storage draws = some ⟨401, "", [], []⟩ := by
  have hf : fetchUser db (conn.token.getD "") = none := by
    rw [fetchUser, List.find?_eq_none]
    intro u hu
    simp only [Bool.and_eq_true, beq_iff_eq, bne_iff_ne, ne_eq, not_and, not_not]
    intro ht
    simpa [Privileges.ACTIVE] using h5 u hu ht
  rw [upload_splits conn db storage draws body cl h1 h2 h3, if_pos h4]
  simp [uploadAuthStage, hf]

/-- Witness for C6: a valid bmp body with an unknown token (the only user row
has `ACTIVE` clear) is rejected 401 and nothing is written. -/
theorem c6_unauthorized_witness :
    upload ⟨some "ShareX/13.1.0", some "t", some "image/bmp", some 100,
        some [0x42, 0x4D]⟩ [⟨"t", 1, "cmyui", 2⟩] [] [] =
      some ⟨401, "", [], []⟩ :=
  c6_unauthorized ⟨some "ShareX/13.1.0", some "t", some "image/bmp", some 100,
      some [0x42, 0x4D]⟩ [⟨"t", 1, "cmyui", 2⟩] [] [] [0x42, 0x4D] 100
    (by decide) rfl rfl (by decide) (by decide)

/-- C1: past header validation, size bound and authentication, an upload
declaring a registered MIME type is accepted at the type-acceptance stage
(and proceeds to persistence) iff that type's signature predicate accepts the
body bytes; when the predicate rejects, the answer is 400 with no blob write
and no ledger insert. -/
theorem c1_type_acceptance (conn : Conn) (db : List UserRow)
    (storage : List String) (draws : List (List Nat)) (body : List Nat)
    (cl : Int) (user : UserRow) (ft : FileType)
    (h1 : headersOk conn = true) (h2 : conn.body = some body)
    (h3 : conn.contentLength = some cl)
    (h4 : 64 ≤ cl ∧ cl < (0x400 : Int) ^ 3)
    (h5 : fetchUser db (conn.token.getD "") = some user)
    (h6 : lookupMime (conn.contentType.getD "") = some ft) :
    (ft.condition body = true →
      upload conn db storage draws =
        uploadPersistStage body user cl ft.extension storage draws) ∧
    (ft.condition body = false →
      upload conn db storage draws = some ⟨400, "", [], []⟩) := by
  constructor <;> intro hc <;>
    rw [upload_splits conn db storage draws body cl h1 h2 h3, if_pos h4] <;>
    simp [uploadAuthStage, h5, uploadTypeStage, h6, hc, reject400]

/-- Witness for C1: a body satisfying the png predicate, declared as
`image/gif` (whose predicate it fails), is rejected 400 with no blob write
and no ledger insert. -/
theorem c1_type_acceptance_witness :
    upload ⟨some "ShareX/13.1.0", some "t", some "image/gif", some 100,
        some (pngMagic ++ List.replicate 48 0 ++ pngTail)⟩
      [⟨"t", 1, "cmyui", 1⟩] [] [[0, 0, 0, 0, 0, 0, 0, 0]] =
      some ⟨400, "", [], []⟩ :=
  (c1_type_acceptance ⟨some "ShareX/13.1.0", some "t", some "image/gif",
      some 100, some (pngMagic ++ List.replicate 48 0 ++ pngTail)⟩
    [⟨"t", 1, "cmyui", 1⟩] [] [[0, 0, 0, 0, 0, 0, 0, 0]]
    (pngMagic ++ List.replicate 48 0 ++ pngTail) 100 ⟨"t", 1, "cmyui", 1⟩
    ⟨"gif", gif_condition⟩ (by decide) rfl rfl (by decide) rfl rfl).2 (by decide)

theorem string_mk_append_assoc (x : List Char) :
    String.mk x ++ "." ++ "png" = String.mk x ++ ".png" := by
  show String.mk ((x ++ ['.']) ++ ['p', 'n', 'g']) =
    String.mk (x ++ ['.', 'p', 'n', 'g'])
  rw [List.append_assoc]
  rfl

/-- C2: an upload with valid headers, in-bound size, an authenticated active
user, declared `image/png`, whose body starts with the PNG magic and ends
with the IEND tail, is answered 200 with body
`https://i.cmyui.xyz/<generated_name>`, the generated name ends in `.png`,
the body bytes are written to storage under that name, and the single ledger
row is `(name, user id, declared size)`. -/
theorem c2_png_upload (conn : Conn) (db : List UserRow) (storage : List String)
    (draws : List (List Nat)) (body : List Nat) (cl : Int) (user : UserRow)
    (nm : String)
    (h1 : headersOk conn = true) (h2 : conn.body = some body)
    (h3 : conn.contentLength = some cl)
    (h4 : 64 ≤ cl ∧ cl < (0x400 : Int) ^ 3)
    (h5 : conn.contentType = some "image/png")
    (h6 : pySlice 0 8 body = pngMagic) (h7 : pyTakeLast 8 body = pngTail)
    (h8 : fetchUser db (conn.token.getD "") = some user)
    (h9 : generateName "png" storage draws = some nm) :
    upload conn db storage draws =
      some ⟨200, "https://i.cmyui.xyz/" ++ nm, [(nm, body)],
        [(nm, user.id, cl)]⟩ ∧
    ∃ tok : String, nm = tok ++ ".png" := by
  have hcond : png_condition body = true := by
    simp [png_condition, h6, h7]
  have hmime : lookupMime (conn.contentType.getD "") =
      some ⟨"png", png_condition⟩ := by
    rw [h5]; rfl
  constructor
  · rw [upload_splits conn db storage draws body cl h1 h2 h3, if_pos h4]
    simp [uploadAuthStage, h8, uploadTypeStage, hmime, hcond,
      uploadPersistStage, h9]
  · obtain ⟨-, d, -, rfl⟩ := generateName_eq_some h9
    exact ⟨String.mk (b64encode d), string_mk_append_assoc _⟩

/-- Witness for C2: a 64-byte body with PNG magic and IEND tail, uploaded by
the active user, is stored under the generated name `AAAAAAAAAAA.png` and
answered with the matching public URL and ledger row. -/
theorem c2_png_upload_witness :
    upload ⟨some "ShareX/13.1.0", some "t", some "image/png", some 64,
        some (pngMagic ++ List.replicate 48 0 ++ pngTail)⟩
      [⟨"t", 1, "cmyui", 1⟩] [] [[0, 0, 0, 0, 0, 0, 0, 0]] =
      some ⟨200, "https://i.cmyui.xyz/" ++ "AAAAAAAAAAA.png",
        [("AAAAAAAAAAA.png", pngMagic ++ List.replicate 48 0 ++ pngTail)],
        [("AAAAAAAAAAA.png", 1, 64)]⟩ ∧
    ∃ tok : String, "AAAAAAAAAAA.png" = tok ++ ".png" :=
  c2_png_upload ⟨some "ShareX/13.1.0", some "t", some "image/png", some 64,
      some (pngMagic ++ List.replicate 48 0 ++ pngTail)⟩
    [⟨"t", 1, "cmyui", 1⟩] [] [[0, 0, 0, 0, 0, 0, 0, 0]]
    (pngMagic ++ List.replicate 48 0 ++ pngTail) 64 ⟨"t", 1, "cmyui", 1⟩
    "AAAAAAAAAAA.png" (by decide) rfl rfl (by decide) rfl (by decide)
    (by decide) rfl rfl

/-- C10: whenever an upload is accepted (status 200), the single blob write
stores the request body, while the single ledger row records the integer
value of the declared `Content-Length` header as the size — the pipeline
never relates that declared value to the length of the stored bytes. -/
theorem c10_recorded_size (conn : Conn) (db : List UserRow)
    (storage : List String) (draws : List (List Nat)) (e : UploadEffects)
    (h : upload conn db storage draws = some e) (h200 : e.status = 200) :
    ∃ nm body cl user,
      conn.body = some body ∧ conn.contentLength = some cl ∧
      fetchUser db (conn.token.getD "") = some user ∧
      e.writes = [(nm, body)] ∧ e.ledger = [(nm, user.id, cl)] := by
  by_cases h1 : headersOk conn = true
  · cases h2 : conn.body with
    | none =>
      rw [upload, if_pos h1, h2] at h
      simp only [Option.some.injEq] at h
      subst h
      simp [reject400] at h200
    | some body =>
      cases h3 : conn.contentLength with
      | none =>
        rw [upload, if_pos h1, h2, h3] at h
        exact absurd h (by simp)
      | some cl =>
        rw [upload_splits conn db storage draws body cl h1 h2 h3] at h
        by_cases h4 : 64 ≤ cl ∧ cl < (0x400 : Int) ^ 3
        · rw [if_pos h4, uploadAuthStage] at h
          cases h5 : fetchUser db (conn.token.getD "") with
          | none =>
            simp only [h5, Option.some.injEq] at h
            subst h
            simp at h200
          | some user =>
            simp only [h5] at h
            rw [uploadTypeStage] at h
            cases h6 : lookupMime (conn.contentType.getD "") with
            | none =>
              simp only [h6, Option.some.injEq] at h
              subst h
              simp [reject400] at h200
            | some ft =>
              simp only [h6] at h
              by_cases h7 : ft.condition body = true
              · rw [if_pos h7, uploadPersistStage] at h
                cases h8 : generateName ft.extension storage draws with
                | none =>
                  simp only [h8] at h
                  exact Option.noConfusion h
                | some nm =>
                  simp only [h8, Option.some.injEq] at h
                  subst h
                  exact ⟨nm, body, cl, user, rfl, rfl, rfl, rfl, rfl⟩
              · rw [if_neg (by simpa using h7)] at h
                simp only [Option.some.injEq] at h
                subst h
                simp [reject400] at h200
        · rw [if_neg h4] at h
          simp only [Option.some.injEq] at h
          subst h
          simp [reject400] at h200
  · rw [upload, if_neg h1] at h
    simp only [Option.some.injEq] at h
    subst h
    simp [reject400] at h200

/-- Witness for C10: an accepted bmp upload whose body is 2 bytes while the
declared `Content-Length` is 100 records size 100 in the ledger — the stored
blob and the recorded size disagree. -/
theorem c10_recorded_size_witness :
    ∃ nm body cl user,
      (Conn.mk (some "ShareX/13.1.0") (some "t") (some "image/bmp") (some 100)
        (some [0x42, 0x4D])).body = some body ∧
      (Conn.mk (some "ShareX/13.1.0") (some "t") (some "image/bmp") (some 100)
        (some [0x42, 0x4D])).contentLength = some cl ∧
      fetchUser [⟨"t", 1, "cmyui", 1⟩]
        ((Conn.mk (some "ShareX/13.1.0") (some "t") (some "image/bmp")
          (some 100) (some [0x42, 0x4D])).token.getD "") = some user ∧
      (UploadEffects.mk 200 "https://i.cmyui.xyz/AAAAAAAAAAA.bmp"
        [("AAAAAAAAAAA.bmp", [0x42, 0x4D])]
        [("AAAAAAAAAAA.bmp", 1, 100)]).writes = [(nm, body)] ∧
      (UploadEffects.mk 200 "https://i.cmyui.xyz/AAAAAAAAAAA.bmp"
        [("AAAAAAAAAAA.bmp", [0x42, 0x4D])]
        [("AAAAAAAAAAA.bmp", 1, 100)]).ledger = [(nm, user.id, cl)] :=
  c10_recorded_size
    (Conn.mk (some "ShareX/13.1.0") (some "t") (some "image/bmp") (some 100)
      (some [0x42, 0x4D]))
    [⟨"t", 1, "cmyui", 1⟩] [] [[0, 0, 0, 0, 0, 0, 0, 0]]
    (UploadEffects.mk 200 "https://i.cmyui.xyz/AAAAAAAAAAA.bmp"
      [("AAAAAAAAAAA.bmp", [0x42, 0x4D])] [("AAAAAAAAAAA.bmp", 1, 100)])
    (by decide) rfl

/-- C9: a retrieval request whose path matches the route pattern, whose file
occupies storage and whose extension matches a registered rule is still
answered 400 with an empty body when none of `CF-Connecting-IP`,
`X-Forwarded-For` and `X-Real-IP` is present: client-IP resolution is a
precondition for serving the file. -/
theorem c9_ip_precondition (conn : GetConn) (storage : List (String × List Nat))
    (file : String × List Nat) (ft : String × FileType)
    (h0 : routeMatches conn.path = true)
    (h1 : storage.find? (fun p => p.1 == requestName conn) = some file)
    (h2 : SUPPORTED_FILES.find?
      (fun p => fileSuffix (requestName conn).data ==
        ('.' :: p.2.extension.data)) = some ft)
    (h3 : conn.cfConnectingIP = none) (h4 : conn.xForwardedFor = none)
    (h5 : conn.xRealIP = none) :
    get conn storage = (400, []) := by
  have hip : resolveIP conn = none := by
    simp [resolveIP, headerTruthy, h3, h4, h5]
  rw [get, h1, h2, hip]

/-- Witness for C9: the stored file `abcdefghijk.png` exists and has a
recognized extension, the path matches the route, yet with no IP headers the
response is `(400, b"")`. -/
theorem c9_ip_precondition_witness :
    get ⟨"/abcdefghijk.png", none, none, none⟩
      [("abcdefghijk.png", [1, 2, 3])] = (400, []) :=
  c9_ip_precondition ⟨"/abcdefghijk.png", none, none, none⟩
    [("abcdefghijk.png", [1, 2, 3])] ("abcdefghijk.png", [1, 2, 3])
    ("image/png", ⟨"png", png_condition⟩) (by decide) rfl rfl rfl rfl rfl

/-- Counterexample to C3 as stated: the retrieval route binds `get` with its
`ratelimit` decorator commented out, so the handler holds no call-count
state — the responses to twenty successive in-window retrievals of a stored
file are all `(200, file bytes)`; in particular the 4th and every later call
still invokes the file-serving operation and returns its result, never a
fallback payload. -/
theorem c3_counterexample :
    (List.range 20).map
      (fun i => retrievalRespond i
        ⟨"/abcdefghijk.png", some "1.2.3.4", none, none⟩
        [("abcdefghijk.png", [1, 2, 3])]) =
    List.replicate 20 (200, [1, 2, 3]) := by
  rfl

/-- C3 amended: in this variant the retrieval path is not wrapped by the rate
limiter (the decorator on the route is commented out): the response to the
`i`-th retrieval request of a window equals `get` itself for every `i`, and
whenever the file occupies storage with a recognized extension and a client
IP resolves, every call — regardless of its position in the window — invokes
the file-serving operation and returns the stored bytes. -/
theorem c3_no_ratelimit_on_get (i : Nat) (conn : GetConn)
    (storage : List (String × List Nat)) (file : String × List Nat)
    (ft : String × FileType) (ip : String)
    (h1 : storage.find? (fun p => p.1 == requestName conn) = some file)
    (h2 : SUPPORTED_FILES.find?
      (fun p => fileSuffix (requestName conn).data ==
        ('.' :: p.2.extension.data)) = some ft)
    (h3 : resolveIP conn = some ip) :
    retrievalRespond i conn storage = get conn storage ∧
    retrievalRespond i conn storage = (200, file.2) := by
  refine ⟨rfl, ?_⟩
  rw [retrievalRespond, get, h1, h2, h3]

/-- Witness for the amended C3: the 16th call of a window (index 15, beyond
the `max_count = 15` of the commented-out decorator configuration) still
returns the stored bytes. -/
theorem c3_no_ratelimit_on_get_witness :
    retrievalRespond 15 ⟨"/abcdefghijk.png", some "1.2.3.4", none, none⟩
        [("abcdefghijk.png", [1, 2, 3])] =
      get ⟨"/abcdefghijk.png", some "1.2.3.4", none, none⟩
        [("abcdefghijk.png", [1, 2, 3])] ∧
    retrievalRespond 15 ⟨"/abcdefghijk.png", some "1.2.3.4", none, none⟩
        [("abcdefghijk.png", [1, 2, 3])] = (200, [1, 2, 3]) :=
  c3_no_ratelimit_on_get 15 ⟨"/abcdefghijk.png", some "1.2.3.4", none, none⟩
    [("abcdefghijk.png", [1, 2, 3])] ("abcdefghijk.png", [1, 2, 3])
    ("image/png", ⟨"png", png_condition⟩) "1.2.3.4" rfl rfl rfl

end StaticServ
